import Mathlib

/-
Shallow embedding of the greet_fastapi service
(src/repositories/python/bases/datum/greet_fastapi/core.py).

The file defines the two route handlers from the source, the observable
process-wide state (log lines emitted through the logger handle and the
number of greeting-provider invocations), and a dispatch layer for the
parts the source delegates to its host framework and to external
collaborators; those delegated parts are modelled from the spec and are
marked as such in their doc comments.
-/

/-- JSON-like values, as produced by the response serialization. -/
inductive Json where
  | null : Json
  | str : String → Json
  | int : Int → Json
  | obj : List (String × Json) → Json

/-- Lookup of a key in a JSON object; none on a non-object or a missing key. -/
def Json.lookup : Json → String → Option Json
  | .obj fields, k => fields.lookup k
  | _, _ => none

/-- The fixed message logged by the root handler (core.py line 13). -/
def rootLogMsg : String := "The FastAPI root endpoint was called."

/-- Modelled from the spec: the outcome of one invocation of each external
collaborator, both outside this fragment.  The greeting provider
(components.datum.greeting) is a zero-argument function returning a greeting
string; the logger (components.datum.logger) accepts a message at info
severity.  Either call may raise an exception, of type ε here. -/
structure Collab (ε : Type) where
  logResult : Except ε Unit
  greetResult : Except ε String

/-- Observable process-wide state: the lines emitted through the logger
handle, in order, and the number of invocations of the greeting provider. -/
structure St where
  logLines : List String
  greetCalls : Nat
  deriving DecidableEq, Repr

/-- An HTTP response: a status code and a JSON body. -/
structure Response where
  status : Nat
  body : Json

/-- Serialization of the optional query parameter: an absent value is
rendered as JSON null, a present string as a JSON string. -/
def jsonOfOpt : Option String → Json
  | some s => .str s
  | none => .null

/-- The item handler (core.py lines 18 to 20): returns the mapping binding
item_id and q to the two inputs, echoed without transformation. -/
def read_item (item_id : Int) (q : Option String) : Json :=
  .obj [("item_id", .int item_id), ("q", jsonOfOpt q)]

/-- The root handler (core.py lines 11 to 15): emits one info log line, then
invokes the greeting provider and returns the mapping binding message to its
result.  Exceptions from either collaborator are not handled locally: the
invocation propagates them.  When the logger call itself raises, no line was
emitted and the greeting provider is never reached. -/
def root {ε : Type} (c : Collab ε) (s : St) : St × Except ε Json :=
  match c.logResult with
  | .error e => (s, .error e)
  | .ok _ =>
      let s1 : St := ⟨s.logLines ++ [rootLogMsg], s.greetCalls + 1⟩
      match c.greetResult with
      | .error e => (s1, .error e)
      | .ok v => (s1, .ok (.obj [("message", .str v)]))

/-- A request to one of the two registered routes.  For the item route the
path parameter arrives as the raw path segment string and the query
parameter as an optional string. -/
inductive Req where
  | rootReq : Req
  | itemReq (seg : String) (q : Option String) : Req

/-- Digits of a nonempty decimal numeral to a natural number; none when the
list is empty or holds a non-digit character. -/
def digitsToNat (cs : List Char) : Option Nat :=
  if cs = [] then none
  else cs.foldl
    (fun acc c => acc.bind
      (fun n => if c.isDigit then some (10 * n + (c.toNat - 48)) else none))
    (some 0)

/-- Modelled from the spec: the coercion of the item_id path segment to an
integer by the host framework, which the source delegates to.  An optional
minus sign followed by decimal digits parses; any other segment is rejected
before the handler runs. -/
def parsePathInt (seg : String) : Option Int :=
  match seg.toList with
  | '-' :: rest => (digitsToNat rest).map (fun n => -(n : Int))
  | cs => (digitsToNat cs).map (fun n => (n : Int))

/-- Modelled from the spec: the framework-generated client-error response for
a malformed item_id.  The spec fixes only that its status is a 4xx client
error rather than 200. -/
def validationError : Response :=
  ⟨422, Json.obj [("detail", Json.str "value is not a valid integer")]⟩

/-- Modelled from the spec: the dispatch of the host framework around the two
handlers.  A successful handler result is serialized with status 200; a
malformed item_id is rejected with the client-error response before the
handler runs; a handler exception propagates unchanged to the error path of
the framework.  The Bool records whether the handler body was executed. -/
def handle {ε : Type} (c : Collab ε) (s : St) : Req → St × Bool × Except ε Response
  | .rootReq =>
      match root c s with
      | (s1, .ok b) => (s1, true, .ok ⟨200, b⟩)
      | (s1, .error e) => (s1, true, .error e)
  | .itemReq seg q =>
      match parsePathInt seg with
      | some i => (s, true, .ok ⟨200, read_item i q⟩)
      | none => (s, false, .ok validationError)

/-- C1: for every string v returned by the greeting provider, a root-route
invocation responds with status 200 and body exactly the object binding
message to v. -/
theorem root_responds_greeting (ε : Type) (c : Collab ε) (s : St) (v : String)
    (hl : c.logResult = .ok ()) (hg : c.greetResult = .ok v) :
    (handle c s .rootReq).2.2 =
      .ok ⟨200, Json.obj [("message", Json.str v)]⟩ := by
  simp [handle, root, hl, hg]

/-- Witness for C1 at the greeting Hello World. -/
theorem root_responds_greeting_witness :
    (handle (⟨.ok (), .ok "Hello World"⟩ : Collab Unit) ⟨[], 0⟩ .rootReq).2.2 =
      .ok ⟨200, Json.obj [("message", Json.str "Hello World")]⟩ :=
  root_responds_greeting Unit ⟨.ok (), .ok "Hello World"⟩ ⟨[], 0⟩ "Hello World" rfl rfl

/-- C2: for every request whose item_id segment parses to the integer i and
every optional query string q, the item route responds with status 200 and
body exactly the object binding item_id to i and q to the echoed q. -/
theorem read_item_echoes (ε : Type) (c : Collab ε) (s : St) (seg : String)
    (i : Int) (q : Option String) (hp : parsePathInt seg = some i) :
    (handle c s (.itemReq seg q)).2.2 =
      .ok ⟨200, Json.obj [("item_id", Json.int i), ("q", jsonOfOpt q)]⟩ := by
  simp [handle, hp, read_item]

/-- Witness for C2 at segment 5 with query test. -/
theorem read_item_echoes_witness :
    parsePathInt "5" = some 5 ∧
    (handle (⟨.ok (), .ok "x"⟩ : Collab Unit) ⟨[], 0⟩ (.itemReq "5" (some "test"))).2.2 =
      .ok ⟨200, Json.obj [("item_id", Json.int 5), ("q", jsonOfOpt (some "test"))]⟩ :=
  ⟨by decide,
   read_item_echoes Unit ⟨.ok (), .ok "x"⟩ ⟨[], 0⟩ "5" 5 (some "test") (by decide)⟩

/-- C3: when the query parameter is not supplied, the item route's body for a
segment parsing to i binds the key q to JSON null: the key is present and
mapped to null, not omitted. -/
theorem read_item_absent_q_is_null (ε : Type) (c : Collab ε) (s : St)
    (seg : String) (i : Int) (hp : parsePathInt seg = some i) :
    (handle c s (.itemReq seg none)).2.2 =
      .ok ⟨200, Json.obj [("item_id", Json.int i), ("q", Json.null)]⟩ ∧
    Json.lookup (read_item i none) "q" = some Json.null := by
  constructor
  · simp [handle, hp, read_item, jsonOfOpt]
  · rfl

/-- Witness for C3 at segment 5 with no query. -/
theorem read_item_absent_q_is_null_witness :
    parsePathInt "5" = some 5 ∧
    ((handle (⟨.ok (), .ok "x"⟩ : Collab Unit) ⟨[], 0⟩ (.itemReq "5" none)).2.2 =
      .ok ⟨200, Json.obj [("item_id", Json.int 5), ("q", Json.null)]⟩ ∧
     Json.lookup (read_item 5 none) "q" = some Json.null) :=
  ⟨by decide,
   read_item_absent_q_is_null Unit ⟨.ok (), .ok "x"⟩ ⟨[], 0⟩ "5" 5 (by decide)⟩

/-- C4: when the logger call succeeds, a root invocation appends exactly one
log line, the fixed message, and its only other observable effect is the one
prescribed greeting-provider invocation, whether or not the provider
raises. -/
theorem root_exactly_one_log (ε : Type) (c : Collab ε) (s : St)
    (hl : c.logResult = .ok ()) :
    (handle c s .rootReq).1 = ⟨s.logLines ++ [rootLogMsg], s.greetCalls + 1⟩ := by
  cases hg : c.greetResult <;> simp [handle, root, hl, hg]

/-- Witness for C4 from the empty state. -/
theorem root_exactly_one_log_witness :
    (handle (⟨.ok (), .ok "Hello World"⟩ : Collab Unit) ⟨[], 0⟩ .rootReq).1 =
      ⟨[rootLogMsg], 1⟩ :=
  root_exactly_one_log Unit ⟨.ok (), .ok "Hello World"⟩ ⟨[], 0⟩ rfl

/-- C5: a request whose item_id segment does not parse as an integer never
reaches the handler body, leaves the state untouched, and yields a 4xx
client-error status, not 200. -/
theorem item_invalid_rejected (ε : Type) (c : Collab ε) (s : St)
    (seg : String) (q : Option String) (hp : parsePathInt seg = none) :
    (handle c s (.itemReq seg q)).2.1 = false ∧
    (handle c s (.itemReq seg q)).1 = s ∧
    ∃ r : Response, (handle c s (.itemReq seg q)).2.2 = .ok r ∧
      400 ≤ r.status ∧ r.status < 500 ∧ r.status ≠ 200 := by
  refine ⟨?_, ?_, validationError, ?_, ?_, ?_, ?_⟩ <;>
    simp [handle, hp, validationError]

/-- Witness for C5 at the non-integer segment abc. -/
theorem item_invalid_rejected_witness :
    parsePathInt "abc" = none ∧
    ((handle (⟨.ok (), .ok "x"⟩ : Collab Unit) ⟨[], 0⟩ (.itemReq "abc" none)).2.1 = false ∧
     (handle (⟨.ok (), .ok "x"⟩ : Collab Unit) ⟨[], 0⟩ (.itemReq "abc" none)).1 = (⟨[], 0⟩ : St) ∧
     ∃ r : Response,
       (handle (⟨.ok (), .ok "x"⟩ : Collab Unit) ⟨[], 0⟩ (.itemReq "abc" none)).2.2 = .ok r ∧
       400 ≤ r.status ∧ r.status < 500 ∧ r.status ≠ 200) :=
  ⟨by decide,
   item_invalid_rejected Unit ⟨.ok (), .ok "x"⟩ ⟨[], 0⟩ "abc" none (by decide)⟩

/-- C6: a root invocation raises exactly when a collaborator raises, and the
exception propagates unchanged: the result is the error e iff the logger
raised e, or the logger succeeded and the greeting provider raised e. -/
theorem root_raises_iff_collaborator (ε : Type) (c : Collab ε) (s : St) (e : ε) :
    (handle c s .rootReq).2.2 = .error e ↔
      (c.logResult = .error e ∨
       (c.logResult = .ok () ∧ c.greetResult = .error e)) := by
  cases hl : c.logResult <;> cases hg : c.greetResult <;>
    simp [handle, root, hl, hg]

/-- C7: two consecutive root invocations, each with its own collaborator
outcomes, emit exactly two log lines and invoke the greeting provider exactly
twice; nothing is cached, and the response of the second invocation is
independent of the state left by the first. -/
theorem root_twice_independent (ε : Type) (c1 c2 : Collab ε) (s : St)
    (h1 : c1.logResult = .ok ()) (h2 : c2.logResult = .ok ()) :
    (handle c2 (handle c1 s .rootReq).1 .rootReq).1.logLines
        = s.logLines ++ [rootLogMsg, rootLogMsg] ∧
    (handle c2 (handle c1 s .rootReq).1 .rootReq).1.greetCalls
        = s.greetCalls + 2 ∧
    ∀ t : St, (handle c2 t .rootReq).2 = (handle c2 s .rootReq).2 := by
  refine ⟨?_, ?_, ?_⟩
  · cases hg1 : c1.greetResult <;> cases hg2 : c2.greetResult <;>
      simp [handle, root, h1, h2, hg1, hg2]
  · cases hg1 : c1.greetResult <;> cases hg2 : c2.greetResult <;>
      simp [handle, root, h1, h2, hg1, hg2]
  · intro t
    cases hg2 : c2.greetResult <;> simp [handle, root, h2, hg2]

/-- Witness for C7 from the empty state. -/
theorem root_twice_independent_witness :
    (handle (⟨.ok (), .ok "b"⟩ : Collab Unit)
        (handle (⟨.ok (), .ok "a"⟩ : Collab Unit) ⟨[], 0⟩ .rootReq).1 .rootReq).1.logLines
        = [rootLogMsg, rootLogMsg] ∧
    (handle (⟨.ok (), .ok "b"⟩ : Collab Unit)
        (handle (⟨.ok (), .ok "a"⟩ : Collab Unit) ⟨[], 0⟩ .rootReq).1 .rootReq).1.greetCalls = 2 ∧
    ∀ t : St, (handle (⟨.ok (), .ok "b"⟩ : Collab Unit) t .rootReq).2
        = (handle (⟨.ok (), .ok "b"⟩ : Collab Unit) ⟨[], 0⟩ .rootReq).2 :=
  root_twice_independent Unit ⟨.ok (), .ok "a"⟩ ⟨.ok (), .ok "b"⟩ ⟨[], 0⟩ rfl rfl

/-- C8: the item handler is a pure deterministic mapping from its request
parameters: two invocations with equal segment and query inputs return equal
results, whatever the server state left by prior requests and whatever the
collaborators would do. -/
theorem read_item_deterministic (ε : Type) (c1 c2 : Collab ε) (s t : St)
    (seg : String) (q : Option String) :
    (handle c1 s (.itemReq seg q)).2 = (handle c2 t (.itemReq seg q)).2 := by
  cases hp : parsePathInt seg <;> simp [handle, hp]

/-- C9: an item-route invocation has no side effects: the observable state,
log lines and greeting-provider invocation count alike, is unchanged, so
neither the logger nor the greeting provider is called. -/
theorem read_item_no_side_effects (ε : Type) (c : Collab ε) (s : St)
    (seg : String) (q : Option String) :
    (handle c s (.itemReq seg q)).1 = s := by
  cases hp : parsePathInt seg <;> simp [handle, hp]

/-- C10: the log emission precedes the greeting-provider invocation: when the
provider raises e after a successful logger call, the root invocation fails
with e while the fixed log line has already been appended and is not rolled
back. -/
theorem root_logs_before_greet (ε : Type) (c : Collab ε) (s : St) (e : ε)
    (hl : c.logResult = .ok ()) (hg : c.greetResult = .error e) :
    (handle c s .rootReq).2.2 = .error e ∧
    (handle c s .rootReq).1.logLines = s.logLines ++ [rootLogMsg] := by
  simp [handle, root, hl, hg]

/-- Witness for C10 with a greeting provider that raises. -/
theorem root_logs_before_greet_witness :
    (handle (⟨.ok (), .error ()⟩ : Collab Unit) ⟨[], 0⟩ .rootReq).2.2 = .error () ∧
    (handle (⟨.ok (), .error ()⟩ : Collab Unit) ⟨[], 0⟩ .rootReq).1.logLines = [rootLogMsg] :=
  root_logs_before_greet Unit ⟨.ok (), .error ()⟩ ⟨[], 0⟩ () rfl rfl
